import Mathlib

set_option maxHeartbeats 1000000

/-
Verification development for the PipedriveProxy upstream dispatch broker.

The Go sources embedded here:
  - internal/utils (http.go, envelope/rate-limit extraction): header constants
    HeaderRetryAfter = "Retry-After", HeaderXRateLimitLimit = "X-RateLimit-Limit",
    HeaderXRateLimitRemaining = "X-RateLimit-Remaining",
    HeaderXRateLimitReset = "X-RateLimit-Reset"; ExtractRateLimitFromHeaders.
  - the upstream broker (package upstream): Task, taskResult, UpstreamBroker,
    Execute, workerLoop, waitIfNotPaused, processTask, setPause,
    requeueWithBackoff, computeRetryAfter.
  - internal/client/retry_queue.go: its own computeRetryAfter.

Time is modelled as Int nanoseconds (Go time.Duration / time.Time deltas).
Go int64 arithmetic wraps; wrap64 makes that explicit where the source can
overflow. Effects (channel sends, re-enqueues, mutex-guarded state updates)
are made explicit in the return values of the step functions.
-/

namespace PipedriveProxy

/-- Nanoseconds per second: the value of Go `time.Second`. -/
def nsPerSecond : Int := 1000000000

def int64Min : Int := -(2 ^ 63)

def int64Max : Int := 2 ^ 63 - 1

/-- Two's-complement wrap of an integer into int64 range (Go arithmetic). -/
def wrap64 (n : Int) : Int := (n + 2 ^ 63) % 2 ^ 64 - 2 ^ 63

/-- Go `1 << attempt` on int64; shift counts of 64 or more shift every bit out. -/
def shl1 (a : Nat) : Int := wrap64 (2 ^ a)

/-- Go `time.Time.Sub` / `time.Until` saturate to the extreme `time.Duration`
values on overflow instead of wrapping. -/
def durClamp (n : Int) : Int :=
  if int64Max < n then int64Max else if n < int64Min then int64Min else n

/-- Value of a decimal digit list, or `none` when empty or not all digits. -/
def digitsVal : List Char → Option Nat
  | [] => none
  | cs =>
    if cs.all Char.isDigit then
      some (cs.foldl (fun a c => a * 10 + (c.toNat - 48)) 0)
    else none

/-- Go `strconv.ParseInt(s, 10, 64)` as (value, err == nil): an optional
sign followed by decimal digits; syntax errors yield (0, false); out-of-range
values are clamped to the extreme int64 of the matching sign with err set. -/
def goParseInt64 (s : String) : Int × Bool :=
  let p : Bool × List Char :=
    match s.toList with
    | '+' :: rest => (false, rest)
    | '-' :: rest => (true, rest)
    | rest => (false, rest)
  match digitsVal p.2 with
  | none => (0, false)
  | some n =>
    let v : Int := if p.1 then -(n : Int) else (n : Int)
    if v < int64Min then (int64Min, false)
    else if int64Max < v then (int64Max, false)
    else (v, true)

/-- Go `strconv.Atoi` is `ParseInt(s, 10, 0)` with the platform int width,
64-bit here. -/
def goAtoi (s : String) : Int × Bool := goParseInt64 s

/-- The response headers the broker and retry queue consult, each field holding
what Go `http.Header.Get` returns for the corresponding header constant; the
empty string encodes an absent header, exactly as `Get` reports it. -/
structure Header where
  retryAfter : String := ""
  xRateLimitLimit : String := ""
  xRateLimitRemaining : String := ""
  xRateLimitReset : String := ""
deriving Repr, DecidableEq

def emptyHeader : Header := {}

namespace Utils

/-- utils.RateLimitInfo: Limit, Remaining (Go int), ResetAt (int64). -/
structure RateLimitInfo where
  limit : Int
  remaining : Int
  resetAt : Int
deriving Repr, DecidableEq

/-- Go `limit, _ := strconv.Atoi(h.Get(HeaderXRateLimitLimit))`: the error is
dropped, so a range error still leaves the clamped value. -/
def parsedLimit (h : Header) : Int := (goAtoi h.xRateLimitLimit).1

/-- Go `remaining, _ := strconv.Atoi(h.Get(HeaderXRateLimitRemaining))`. -/
def parsedRemaining (h : Header) : Int := (goAtoi h.xRateLimitRemaining).1

/-- resetAt stays 0 unless the header is present and `ParseInt` succeeds. -/
def parsedResetAt (h : Header) : Int :=
  if h.xRateLimitReset ≠ "" then
    if (goParseInt64 h.xRateLimitReset).2 then (goParseInt64 h.xRateLimitReset).1 else 0
  else 0

/-- utils.ExtractRateLimitFromHeaders: parse the three numeric fields and
return nil when all three are zero, else the populated struct. -/
def ExtractRateLimitFromHeaders (h : Header) : Option RateLimitInfo :=
  if parsedLimit h = 0 ∧ parsedRemaining h = 0 ∧ parsedResetAt h = 0 then none
  else some ⟨parsedLimit h, parsedRemaining h, parsedResetAt h⟩

end Utils

namespace Upstream

/-- Errors the broker step can deliver. `msg s` is `errors.New(s)` in the
broker source; `transport e` is the opaque error from `client.Do`; `build e`
the opaque error from `http.NewRequest`. Distinct constructors reflect that
these are distinct Go error values. -/
inductive GoErr where
  | msg (s : String)
  | transport (e : String)
  | build (e : String)
deriving Repr, DecidableEq

/-- The part of an `*http.Response` the broker consumes: status code, the
headers it reads, and the fully read body bytes. -/
structure HttpResponse where
  statusCode : Int
  header : Header
  body : String
deriving Repr, DecidableEq

/-- The broker Task fields that drive control flow. Attempts starts at 0 and
is incremented only by the broker; MaxAttempts is forced to 3 by Execute when
the caller passes a value of zero or less, so it is at least 1. -/
structure Task where
  method : String
  url : String
  body : String
  attempts : Nat
  maxAttempts : Nat
deriving Repr, DecidableEq

/-- One value of the taskResult channel: (resp, body, rate, err), each nilable. -/
structure TaskResult where
  resp : Option HttpResponse
  body : Option String
  rate : Option Utils.RateLimitInfo
  err : Option GoErr
deriving Repr, DecidableEq

/-- The mutex-guarded broker fields: pauseUntil (ns timestamp, zero value in
the past) and lastRate. -/
structure BrokerState where
  pauseUntil : Int
  lastRate : Option Utils.RateLimitInfo
deriving Repr, DecidableEq

/-- UpstreamBroker.setPause: advance pauseUntil to t only if t is later. -/
def setPause (pauseUntil t : Int) : Int :=
  if pauseUntil < t then t else pauseUntil

/-- The delay slept by requeueWithBackoff before its re-enqueue attempt:
`time.Second * time.Duration(1<<attempt)`, capped at 30 seconds. -/
def requeueDelay (attempt : Nat) : Int :=
  let delay := wrap64 (nsPerSecond * shl1 attempt)
  if 30 * nsPerSecond < delay then 30 * nsPerSecond else delay

/-- The broker computeRetryAfter. `parseHTTPDate` abstracts `http.ParseTime`,
returning the parsed time as unix nanoseconds; `now` is the current unix-ns
instant, so `time.Until t` is `durClamp (t - now)`. Resolution: Retry-After as
integer seconds, else Retry-After as HTTP date, else X-RateLimit-Reset (small
values are seconds-from-now, large ones unix timestamps), else capped
exponential fallback. -/
def computeRetryAfter (parseHTTPDate : String → Option Int) (now : Int)
    (h : Header) (attempt : Nat) : Int :=
  let fallback : Int :=
    let wait := wrap64 (nsPerSecond * shl1 attempt)
    if 30 * nsPerSecond < wait then 30 * nsPerSecond else wait
  let fromReset : Int :=
    if h.xRateLimitReset = "" then fallback
    else
      let p := goParseInt64 h.xRateLimitReset
      if p.2 then
        if p.1 < 1000000000 then wrap64 (p.1 * nsPerSecond)
        else durClamp (p.1 * nsPerSecond - now)
      else fallback
  if h.retryAfter = "" then fromReset
  else
    let a := goAtoi h.retryAfter
    if a.2 then wrap64 (a.1 * nsPerSecond)
    else
      match parseHTTPDate h.retryAfter with
      | some t => durClamp (t - now)
      | none => fromReset

/-- The nondeterministic surroundings of one processTask invocation:
the outcome of `http.NewRequest`, the outcome of `client.Do`, whether the
queue had a free slot at the moment of the detached retry re-enqueue select,
the current time, and the HTTP date parser. -/
structure DispatchEnv where
  buildErr : Option String
  doResult : Except String HttpResponse
  reenqueueOk : Bool
  now : Int
  parseHTTPDate : String → Option Int

/-- Everything one processTask invocation (together with the detached retry
goroutine it may spawn) does: whether the task went back into the queue, the
sleep taken before the re-enqueue attempt when a retry path was chosen, the
taskResult values sent on the task channel, the final Attempts field, and the
final broker state. -/
structure DispatchOut where
  requeued : Bool
  retryDelay : Option Int
  writes : List TaskResult
  attempts : Nat
  state : BrokerState
deriving Repr, DecidableEq

/-- UpstreamBroker.processTask, lines 150-233 of the broker source, with the
two detached re-enqueue goroutines (the 429 sleeper and requeueWithBackoff)
folded in via `env.reenqueueOk`. -/
def processTask (env : DispatchEnv) (st : BrokerState) (t : Task) : DispatchOut :=
  match env.buildErr with
  | some e =>
    { requeued := false, retryDelay := none,
      writes := [⟨none, none, none, some (GoErr.build e)⟩],
      attempts := t.attempts, state := st }
  | none =>
    match env.doResult with
    | .error e =>
      if t.attempts < t.maxAttempts then
        let a := t.attempts + 1
        if env.reenqueueOk then
          { requeued := true, retryDelay := some (requeueDelay a),
            writes := [], attempts := a, state := st }
        else
          { requeued := false, retryDelay := some (requeueDelay a),
            writes := [⟨none, none, none, some (GoErr.msg "queue full while retry")⟩],
            attempts := a, state := st }
      else
        { requeued := false, retryDelay := none,
          writes := [⟨none, none, none, some (GoErr.transport e)⟩],
          attempts := t.attempts, state := st }
    | .ok resp =>
      let rate := Utils.ExtractRateLimitFromHeaders resp.header
      let st1 : BrokerState :=
        match rate with
        | none => st
        | some r =>
          let stR : BrokerState := { st with lastRate := some r }
          if r.remaining ≤ 0 ∧ 0 < r.resetAt ∧ env.now < r.resetAt * nsPerSecond then
            { stR with pauseUntil := setPause stR.pauseUntil (r.resetAt * nsPerSecond) }
          else stR
      if resp.statusCode = 429 then
        let wait := computeRetryAfter env.parseHTTPDate env.now resp.header t.attempts
        let st2 : BrokerState := { st1 with pauseUntil := setPause st1.pauseUntil (env.now + wait) }
        if t.attempts < t.maxAttempts then
          let a := t.attempts + 1
          if env.reenqueueOk then
            { requeued := true, retryDelay := some wait,
              writes := [], attempts := a, state := st2 }
          else
            { requeued := false, retryDelay := some wait,
              writes := [⟨none, none, rate, some (GoErr.msg "queue full while re-enqueue")⟩],
              attempts := a, state := st2 }
        else
          { requeued := false, retryDelay := none,
            writes := [⟨none, some resp.body, rate, some (GoErr.msg "max attempts reached after 429")⟩],
            attempts := t.attempts, state := st2 }
      else if 500 ≤ resp.statusCode ∧ t.attempts < t.maxAttempts then
        let a := t.attempts + 1
        if env.reenqueueOk then
          { requeued := true, retryDelay := some (requeueDelay a),
            writes := [], attempts := a, state := st1 }
        else
          { requeued := false, retryDelay := some (requeueDelay a),
            writes := [⟨none, none, none, some (GoErr.msg "queue full while retry")⟩],
            attempts := a, state := st1 }
      else
        { requeued := false, retryDelay := none,
          writes := [⟨some resp, some resp.body, rate, none⟩],
          attempts := t.attempts, state := st1 }

/-- UpstreamBroker.waitIfNotPaused: if now is before pauseUntil the worker
sleeps, and a signaled quit channel wins the wait and yields false; once now
has reached pauseUntil the function returns true regardless of quit. -/
def waitIfNotPaused (quitSignaled : Bool) (now pauseUntil : Int) : Bool :=
  if now < pauseUntil then !quitSignaled else true

/-- The observable outcome of one iteration of workerLoop. -/
inductive LoopStep where
  | exit
  | continueLoop (writes : List TaskResult)
  | processed (out : DispatchOut)
deriving Repr, DecidableEq

/-- One iteration of UpstreamBroker.workerLoop. `quitChosen` records which
ready select case fired (Go picks among ready cases nondeterministically);
`dequeued` is the received task pointer, `none` for nil; `quitSignaled` tells
whether the quit channel is closed during the pause wait. -/
def workerIter (quitChosen : Bool) (dequeued : Option Task) (quitSignaled : Bool)
    (env : DispatchEnv) (st : BrokerState) : LoopStep :=
  if quitChosen then .exit
  else
    match dequeued with
    | none => .continueLoop []
    | some t =>
      if waitIfNotPaused quitSignaled env.now st.pauseUntil then
        .processed (processTask env st t)
      else
        .continueLoop [⟨none, none, none, some (GoErr.msg "broker shutting down")⟩]

/-- Number of taskResult deliveries performed by a loop iteration. -/
def LoopStep.deliveries : LoopStep → Nat
  | .exit => 0
  | .continueLoop ws => ws.length
  | .processed o => o.writes.length

/-- Whether the iteration put the dequeued task back into the queue. -/
def LoopStep.requeuedTask : LoopStep → Bool
  | .processed o => o.requeued
  | _ => false

/-- Outcome of the enqueue select at the head of Execute. -/
inductive EnqueueOutcome where
  | enqueued (queue : List Task)
  | cancelled (queue : List Task) (result : TaskResult)
  | blocked (queue : List Task)
deriving Repr, DecidableEq

/-- The first select of UpstreamBroker.Execute: send the task into the bounded
queue or observe ctx.Done(). `ctxErr` is the value of `ctx.Err()`; `pick`
breaks the tie when both select cases are ready. On cancellation Execute
returns `(nil, nil, nil, ctx.Err())` and the queue is untouched. -/
def executeEnqueue (queue : List Task) (capacity : Nat) (ctxDone : Bool)
    (pick : Bool) (t : Task) (ctxErr : GoErr) : EnqueueOutcome :=
  if queue.length < capacity then
    if ctxDone then
      if pick then .enqueued (queue ++ [t])
      else .cancelled queue ⟨none, none, none, some ctxErr⟩
    else .enqueued (queue ++ [t])
  else
    if ctxDone then .cancelled queue ⟨none, none, none, some ctxErr⟩
    else .blocked queue

end Upstream

namespace Client

/-- retry_queue.go computeRetryAfter: identical resolution to the broker one
(it reads the same two headers, "Retry-After" and "X-RateLimit-Reset"), except
that its exponential fallback carries no 30-second cap. -/
def computeRetryAfter (parseHTTPDate : String → Option Int) (now : Int)
    (h : Header) (attempt : Nat) : Int :=
  let fallback : Int := wrap64 (nsPerSecond * shl1 attempt)
  let fromReset : Int :=
    if h.xRateLimitReset = "" then fallback
    else
      let p := goParseInt64 h.xRateLimitReset
      if p.2 then
        if p.1 < 1000000000 then wrap64 (p.1 * nsPerSecond)
        else durClamp (p.1 * nsPerSecond - now)
      else fallback
  if h.retryAfter = "" then fromReset
  else
    let a := goAtoi h.retryAfter
    if a.2 then wrap64 (a.1 * nsPerSecond)
    else
      match parseHTTPDate h.retryAfter with
      | some t => durClamp (t - now)
      | none => fromReset

end Client

namespace Spec

/-- Modelled from the spec: the Backoff Policy resolution order of section 4.1
(shared shape of both code variants), parametrized by the fallback value so the
two variants can be compared against it: (a) the retry hint header as integer
seconds, used directly; (b) the same header as an HTTP date, delta to now;
(c) the rate-limit-reset header, seconds-from-now when numerically small
(below one billion) and a unix timestamp otherwise; (d) the given fallback. -/
def backoffResolution (parseHTTPDate : String → Option Int) (now : Int)
    (h : Header) (fallback : Int) : Int :=
  if h.retryAfter ≠ "" ∧ (goAtoi h.retryAfter).2 then
    wrap64 ((goAtoi h.retryAfter).1 * nsPerSecond)
  else if h.retryAfter ≠ "" ∧ (parseHTTPDate h.retryAfter).isSome then
    durClamp ((parseHTTPDate h.retryAfter).getD 0 - now)
  else if h.xRateLimitReset ≠ "" ∧ (goParseInt64 h.xRateLimitReset).2 then
    if (goParseInt64 h.xRateLimitReset).1 < 1000000000 then
      wrap64 ((goParseInt64 h.xRateLimitReset).1 * nsPerSecond)
    else durClamp ((goParseInt64 h.xRateLimitReset).1 * nsPerSecond - now)
  else fallback

end Spec

/-- HTTP date parser that recognizes nothing; concrete stand-in for
`http.ParseTime` in fixtures whose headers hold no date. -/
def noDate : String → Option Int := fun _ => none

def task0 : Upstream.Task :=
  { method := "GET", url := "https://api.example.test/v1/deals", body := ""
    attempts := 0, maxAttempts := 3 }

/-- A task whose retry budget is exhausted (attempts has reached maxAttempts). -/
def taskMax : Upstream.Task := { task0 with attempts := 3 }

def st0 : Upstream.BrokerState := { pauseUntil := 0, lastRate := none }

/-- Broker state whose pause deadline lies 100 seconds in the future of now=0. -/
def stPaused : Upstream.BrokerState := { pauseUntil := 100 * nsPerSecond, lastRate := none }

/-- Environment for a network-level failure of `client.Do`. -/
def transportEnv : Upstream.DispatchEnv :=
  { buildErr := none, doResult := .error "connection refused",
    reenqueueOk := true, now := 0, parseHTTPDate := noDate }

def resp429 : Upstream.HttpResponse :=
  { statusCode := 429, header := emptyHeader, body := "rate limited" }

def env429 : Upstream.DispatchEnv :=
  { buildErr := none, doResult := .ok resp429,
    reenqueueOk := true, now := 0, parseHTTPDate := noDate }

def resp503 : Upstream.HttpResponse :=
  { statusCode := 503, header := emptyHeader, body := "upstream down" }

def env503 : Upstream.DispatchEnv :=
  { buildErr := none, doResult := .ok resp503,
    reenqueueOk := true, now := 0, parseHTTPDate := noDate }

/-- Environment in which `http.NewRequest` rejects the task's method or URL. -/
def buildFailEnv : Upstream.DispatchEnv :=
  { buildErr := some "net/http: invalid method", doResult := .error "",
    reenqueueOk := true, now := 0, parseHTTPDate := noDate }

/-- Headers announcing a zero remaining quota next to a non-zero limit: a
signal that must stay distinguishable from absent rate-limit headers. -/
def hdrQuota : Header := { xRateLimitLimit := "100", xRateLimitRemaining := "0" }

/-- The resolution shape shared verbatim by the two computeRetryAfter sources,
with the fallback expression abstracted out; each variant is proved equal to
this applied to its own fallback. -/
def codeResolution (parseHTTPDate : String → Option Int) (now : Int)
    (h : Header) (fb : Int) : Int :=
  let fromReset : Int :=
    if h.xRateLimitReset = "" then fb
    else
      let p := goParseInt64 h.xRateLimitReset
      if p.2 then
        if p.1 < 1000000000 then wrap64 (p.1 * nsPerSecond)
        else durClamp (p.1 * nsPerSecond - now)
      else fb
  if h.retryAfter = "" then fromReset
  else
    let a := goAtoi h.retryAfter
    if a.2 then wrap64 (a.1 * nsPerSecond)
    else
      match parseHTTPDate h.retryAfter with
      | some t => durClamp (t - now)
      | none => fromReset

section Lemmas

theorem wrap64_eq_self (n : Int) (h1 : int64Min ≤ n) (h2 : n ≤ int64Max) :
    wrap64 n = n := by
  have e63 : (2:Int) ^ 63 = 9223372036854775808 := by norm_num
  have e64 : (2:Int) ^ 64 = 18446744073709551616 := by norm_num
  simp only [wrap64, int64Min, int64Max] at *
  rw [e63, e64]
  rw [e63] at h1 h2
  omega

theorem shl1_small (a : Nat) (h : a ≤ 62) : shl1 a = 2 ^ a := by
  have e63 : (2:Int) ^ 63 = 9223372036854775808 := by norm_num
  have hpos : (0:Int) < 2 ^ a := by positivity
  unfold shl1
  apply wrap64_eq_self
  · simp only [int64Min]
    linarith [e63]
  · have h2 : (2:Int) ^ a ≤ 2 ^ 62 := by
      apply pow_le_pow_right₀ (by norm_num) h
    have e62 : (2:Int) ^ 62 = 4611686018427387904 := by norm_num
    simp only [int64Max]
    linarith [e62, e63]

theorem requeueDelay_eq (k : Nat) (hk : k ≤ 33) :
    Upstream.requeueDelay k = min (30 * nsPerSecond) (2 ^ k * nsPerSecond) := by
  have e63 : (2:Int) ^ 63 = 9223372036854775808 := by norm_num
  have hs : shl1 k = 2 ^ k := shl1_small k (by omega)
  have h1 : (0:Int) < 2 ^ k := by positivity
  have h2 : (2:Int) ^ k ≤ 8589934592 := by
    calc (2:Int) ^ k ≤ 2 ^ 33 := pow_le_pow_right₀ (by norm_num) hk
    _ = 8589934592 := by norm_num
  have hw : wrap64 (nsPerSecond * 2 ^ k) = nsPerSecond * 2 ^ k := by
    apply wrap64_eq_self
    · simp only [nsPerSecond, int64Min]
      linarith
    · simp only [nsPerSecond, int64Max]
      linarith
  simp only [Upstream.requeueDelay, hs, min_def]
  rw [hw]
  simp only [nsPerSecond]
  split_ifs <;> linarith

/-- Control-path case analysis of processTask: a re-enqueueing path sends
nothing, every other path sends exactly one taskResult. -/
theorem processTask_writes_cases (env : Upstream.DispatchEnv)
    (st : Upstream.BrokerState) (t : Upstream.Task) :
    ((Upstream.processTask env st t).requeued = true ∧
        (Upstream.processTask env st t).writes = []) ∨
    ((Upstream.processTask env st t).requeued = false ∧
        (Upstream.processTask env st t).writes.length = 1) := by
  obtain ⟨be, dr, rq, now, pd⟩ := env
  cases be <;> cases dr <;> unfold Upstream.processTask <;>
    (repeat' split) <;> simp

end Lemmas

/-- C1: For every task submitted through UpstreamBroker.Execute, exactly one
result value is ever written to the task's result channel: along every control
path of processTask (including the detached retry goroutines) and of a
workerLoop iteration that dequeued a real task, either the task is re-enqueued
with no write, or exactly one taskResult is sent; no path writes twice and no
resolved path writes zero times. -/
theorem execute_single_result_delivery (env : Upstream.DispatchEnv)
    (st : Upstream.BrokerState) (t : Upstream.Task) (qs : Bool) :
    ((Upstream.processTask env st t).requeued = true ∧
        (Upstream.processTask env st t).writes = [] ∨
      (Upstream.processTask env st t).requeued = false ∧
        (Upstream.processTask env st t).writes.length = 1) ∧
    ((Upstream.workerIter false (some t) qs env st).requeuedTask = true ∧
        (Upstream.workerIter false (some t) qs env st).deliveries = 0 ∨
      (Upstream.workerIter false (some t) qs env st).requeuedTask = false ∧
        (Upstream.workerIter false (some t) qs env st).deliveries = 1) := by
  refine ⟨processTask_writes_cases env st t, ?_⟩
  unfold Upstream.workerIter
  simp only [if_neg Bool.false_ne_true]
  split
  · rcases processTask_writes_cases env st t with ⟨hr, hw⟩ | ⟨hr, hw⟩
    · left
      simp [Upstream.LoopStep.requeuedTask, Upstream.LoopStep.deliveries, hr, hw]
    · right
      simp [Upstream.LoopStep.requeuedTask, Upstream.LoopStep.deliveries, hr, hw]
  · right
    simp [Upstream.LoopStep.requeuedTask, Upstream.LoopStep.deliveries]

/-- C2: setPause only ever advances the pause deadline: the new deadline is
the maximum of the current one and the argument, two racing updates with
deadlines T1 < T2 converge to T2 in either interleaving, and no call moves
the deadline backward. -/
theorem setPause_monotone_max (P T T1 T2 : Int) (h12 : T1 < T2) (hP : P ≤ T2) :
    Upstream.setPause P T = max P T ∧
    Upstream.setPause (Upstream.setPause P T1) T2 = T2 ∧
    Upstream.setPause (Upstream.setPause P T2) T1 = T2 ∧
    P ≤ Upstream.setPause P T := by
  unfold Upstream.setPause
  rw [max_def]
  split_ifs <;> simp_all <;> omega

/-- Witness for C2 at concrete deadlines. -/
theorem setPause_monotone_max_witness :
    Upstream.setPause 0 5 = max 0 5 ∧
    Upstream.setPause (Upstream.setPause 0 1) 2 = 2 ∧
    Upstream.setPause (Upstream.setPause 0 2) 1 = 2 ∧
    (0:Int) ≤ Upstream.setPause 0 5 :=
  setPause_monotone_max 0 5 1 2 (by norm_num) (by norm_num)

/-- C5: a caller whose context is cancelled while its task waits on a full
queue gets the cancellation error back with nil response, body and rate
snapshot, and the task is never admitted: the queue is returned exactly as it
was. -/
theorem execute_cancel_on_full_queue (queue : List Upstream.Task) (capacity : Nat)
    (pick : Bool) (t : Upstream.Task) (ctxErr : Upstream.GoErr)
    (_hcap : 0 < capacity) (hfull : queue.length = capacity) :
    Upstream.executeEnqueue queue capacity true pick t ctxErr =
      .cancelled queue ⟨none, none, none, some ctxErr⟩ := by
  unfold Upstream.executeEnqueue
  rw [hfull]
  simp

/-- Witness for C5: a single-slot queue already holding a task. -/
theorem execute_cancel_on_full_queue_witness :
    Upstream.executeEnqueue [task0] 1 true true taskMax (Upstream.GoErr.msg "context canceled") =
      .cancelled [task0] ⟨none, none, none, some (Upstream.GoErr.msg "context canceled")⟩ :=
  execute_cancel_on_full_queue [task0] 1 true taskMax
    (Upstream.GoErr.msg "context canceled") (by norm_num) rfl

/-- C6: a 429 with the retry budget exhausted resolves with the terminal
"max attempts reached after 429" error carrying the last response body and the
rate snapshot extracted from that response, while exhausting the budget on
transport failures resolves with the underlying transport error and no body or
snapshot; the two error values are distinct. -/
theorem terminal_429_error_distinct (env env2 : Upstream.DispatchEnv)
    (st st2 : Upstream.BrokerState) (t t2 : Upstream.Task)
    (resp : Upstream.HttpResponse) (e : String)
    (hb : env.buildErr = none) (hdo : env.doResult = .ok resp)
    (h429 : resp.statusCode = 429) (hmax : ¬ t.attempts < t.maxAttempts)
    (hb2 : env2.buildErr = none) (hdo2 : env2.doResult = .error e)
    (hmax2 : ¬ t2.attempts < t2.maxAttempts) :
    (Upstream.processTask env st t).writes =
      [⟨none, some resp.body, Utils.ExtractRateLimitFromHeaders resp.header,
        some (Upstream.GoErr.msg "max attempts reached after 429")⟩] ∧
    (Upstream.processTask env2 st2 t2).writes =
      [⟨none, none, none, some (Upstream.GoErr.transport e)⟩] ∧
    (∀ s, Upstream.GoErr.msg "max attempts reached after 429" ≠ Upstream.GoErr.transport s) := by
  refine ⟨?_, ?_, fun s => by simp⟩
  · simp [Upstream.processTask, hb, hdo, h429, hmax]
  · simp [Upstream.processTask, hb2, hdo2, hmax2]

/-- Witness for C6 on a 429 and a transport failure at an exhausted task. -/
theorem terminal_429_error_distinct_witness :
    (Upstream.processTask env429 st0 taskMax).writes =
      [⟨none, some resp429.body, Utils.ExtractRateLimitFromHeaders resp429.header,
        some (Upstream.GoErr.msg "max attempts reached after 429")⟩] ∧
    (Upstream.processTask transportEnv st0 taskMax).writes =
      [⟨none, none, none, some (Upstream.GoErr.transport "connection refused")⟩] ∧
    (∀ s, Upstream.GoErr.msg "max attempts reached after 429" ≠ Upstream.GoErr.transport s) :=
  terminal_429_error_distinct env429 transportEnv st0 st0 taskMax taskMax resp429
    "connection refused" rfl rfl rfl (by decide) rfl rfl (by decide)

/-- C7: an HTTP 5xx with attempts remaining is retried with the very backoff
used for network failures (requeueWithBackoff on the incremented attempt
count); with attempts exhausted the task resolves with the response itself and
a nil error, leaving status interpretation to the caller. -/
theorem server_error_passthrough (env : Upstream.DispatchEnv)
    (st : Upstream.BrokerState) (t : Upstream.Task) (resp : Upstream.HttpResponse)
    (hb : env.buildErr = none) (hdo : env.doResult = .ok resp)
    (h5 : 500 ≤ resp.statusCode) :
    (t.attempts < t.maxAttempts →
      (Upstream.processTask env st t).attempts = t.attempts + 1 ∧
      (Upstream.processTask env st t).retryDelay =
        some (Upstream.requeueDelay (t.attempts + 1)) ∧
      ((Upstream.processTask env st t).requeued = true ∧
          (Upstream.processTask env st t).writes = [] ∨
        (Upstream.processTask env st t).requeued = false ∧
          (Upstream.processTask env st t).writes =
            [⟨none, none, none, some (Upstream.GoErr.msg "queue full while retry")⟩])) ∧
    (¬ t.attempts < t.maxAttempts →
      (Upstream.processTask env st t).requeued = false ∧
      (Upstream.processTask env st t).writes =
        [⟨some resp, some resp.body, Utils.ExtractRateLimitFromHeaders resp.header, none⟩]) := by
  have h429f : ¬ resp.statusCode = 429 := by omega
  constructor
  · intro hlt
    cases hrq : env.reenqueueOk <;>
      simp [Upstream.processTask, hb, hdo, h429f, h5, hlt, hrq]
  · intro hge
    simp [Upstream.processTask, hb, hdo, h429f, hge]

/-- Witness for C7 at a 503 response, once retryable and once exhausted. -/
theorem server_error_passthrough_witness :
    (Upstream.processTask env503 st0 task0).retryDelay =
      some (Upstream.requeueDelay 1) ∧
    (Upstream.processTask env503 st0 taskMax).writes =
      [⟨some resp503, some resp503.body,
        Utils.ExtractRateLimitFromHeaders resp503.header, none⟩] :=
  ⟨((server_error_passthrough env503 st0 task0 resp503 rfl rfl (by decide)).1
      (by decide)).2.1,
   ((server_error_passthrough env503 st0 taskMax resp503 rfl rfl (by decide)).2
      (by decide)).2⟩

/-- C10: when http.NewRequest rejects the task's method or URL, processTask
resolves the task immediately with that error and nil response, body and rate
snapshot; the attempt counter, the pause deadline and lastRate are untouched
and no retry is scheduled. -/
theorem build_error_terminal (env : Upstream.DispatchEnv)
    (st : Upstream.BrokerState) (t : Upstream.Task) (e : String)
    (hb : env.buildErr = some e) :
    Upstream.processTask env st t =
      { requeued := false, retryDelay := none,
        writes := [⟨none, none, none, some (Upstream.GoErr.build e)⟩],
        attempts := t.attempts, state := st } := by
  unfold Upstream.processTask
  rw [hb]

/-- Witness for C10 at a concrete invalid-method build failure. -/
theorem build_error_terminal_witness :
    Upstream.processTask buildFailEnv st0 task0 =
      { requeued := false, retryDelay := none,
        writes := [⟨none, none, none,
          some (Upstream.GoErr.build "net/http: invalid method")⟩],
        attempts := task0.attempts, state := st0 } :=
  build_error_terminal buildFailEnv st0 task0 "net/http: invalid method" rfl

/-- Counterexample to C4 as stated: the first retry after a network failure
sleeps requeueWithBackoff's delay for the incremented counter, 2 seconds, not
the claimed min(30s, 1s x 2^(1-1)) = 1 second. -/
theorem first_retry_delay_cex :
    (Upstream.processTask transportEnv st0 task0).retryDelay =
      some (2 * nsPerSecond) ∧
    (2 * nsPerSecond : Int) ≠ 1 * nsPerSecond :=
  ⟨by decide, by decide⟩

/-- C4 amended: on a network-level failure with attempts below maxAttempts the
broker increments the counter to k and re-enqueues after the delay
min(30s, 1s x 2^k) — the k-th retry waits 2^k seconds (2s, 4s, 8s, ...), not
2^(k-1), up to the 30s cap; with attempts exhausted the task resolves with the
transport error and nil response, body and snapshot. -/
theorem transport_failure_backoff (env : Upstream.DispatchEnv)
    (st : Upstream.BrokerState) (t : Upstream.Task) (e : String)
    (hb : env.buildErr = none) (hdo : env.doResult = .error e) :
    (t.attempts < t.maxAttempts →
      (Upstream.processTask env st t).attempts = t.attempts + 1 ∧
      (Upstream.processTask env st t).retryDelay =
        some (Upstream.requeueDelay (t.attempts + 1)) ∧
      ((Upstream.processTask env st t).requeued = true ∧
          (Upstream.processTask env st t).writes = [] ∨
        (Upstream.processTask env st t).requeued = false ∧
          (Upstream.processTask env st t).writes =
            [⟨none, none, none, some (Upstream.GoErr.msg "queue full while retry")⟩])) ∧
    (¬ t.attempts < t.maxAttempts →
      Upstream.processTask env st t =
        { requeued := false, retryDelay := none,
          writes := [⟨none, none, none, some (Upstream.GoErr.transport e)⟩],
          attempts := t.attempts, state := st }) ∧
    (∀ k : Nat, k ≤ 33 →
      Upstream.requeueDelay k = min (30 * nsPerSecond) (2 ^ k * nsPerSecond)) := by
  refine ⟨?_, ?_, fun k hk => requeueDelay_eq k hk⟩
  · intro hlt
    cases hrq : env.reenqueueOk <;>
      simp [Upstream.processTask, hb, hdo, hlt, hrq]
  · intro hge
    simp [Upstream.processTask, hb, hdo, hge]

/-- Witness for C4 amended: concrete transport failures with attempts
remaining and exhausted. -/
theorem transport_failure_backoff_witness :
    ((Upstream.processTask transportEnv st0 task0).attempts = 1 ∧
      (Upstream.processTask transportEnv st0 task0).retryDelay =
        some (Upstream.requeueDelay 1) ∧
      ((Upstream.processTask transportEnv st0 task0).requeued = true ∧
          (Upstream.processTask transportEnv st0 task0).writes = [] ∨
        (Upstream.processTask transportEnv st0 task0).requeued = false ∧
          (Upstream.processTask transportEnv st0 task0).writes =
            [⟨none, none, none, some (Upstream.GoErr.msg "queue full while retry")⟩])) ∧
    (Upstream.processTask transportEnv st0 taskMax =
      { requeued := false, retryDelay := none,
        writes := [⟨none, none, none,
          some (Upstream.GoErr.transport "connection refused")⟩],
        attempts := taskMax.attempts, state := st0 }) ∧
    Upstream.requeueDelay 1 = min (30 * nsPerSecond) (2 ^ 1 * nsPerSecond) :=
  ⟨(transport_failure_backoff transportEnv st0 task0 "connection refused" rfl rfl).1
      (by decide),
   (transport_failure_backoff transportEnv st0 taskMax "connection refused" rfl rfl).2.1
      (by decide),
   (transport_failure_backoff transportEnv st0 task0 "connection refused" rfl rfl).2.2
      1 (by norm_num)⟩

/-- Counterexample to C8 as stated: with shutdown signaled during the pause
wait, the worker resolves the dequeued task with the shutdown error but does
not exit its loop (the iteration outcome is a continue, not an exit), and at a
later iteration the select can hand the same worker another task, which it
fully processes because the pause gate ignores the quit signal once the
deadline has passed. -/
theorem worker_shutdown_continue_cex :
    Upstream.workerIter false (some task0) true transportEnv stPaused =
      .continueLoop [⟨none, none, none,
        some (Upstream.GoErr.msg "broker shutting down")⟩] ∧
    Upstream.workerIter false (some task0) true transportEnv stPaused ≠
      Upstream.LoopStep.exit ∧
    Upstream.workerIter false (some task0) true transportEnv st0 =
      .processed (Upstream.processTask transportEnv st0 task0) :=
  ⟨by decide, by decide, rfl⟩

/-- C8 amended: when shutdown is signaled while the pause deadline is still in
the future, a worker holding a task resolves it immediately with the "broker
shutting down" error and returns to the top of its select loop rather than
exiting directly; the worker exits when the select picks the quit case. -/
theorem shutdown_during_pause_wait (env : Upstream.DispatchEnv)
    (st : Upstream.BrokerState) (t : Upstream.Task)
    (hp : env.now < st.pauseUntil) :
    Upstream.workerIter false (some t) true env st =
      .continueLoop [⟨none, none, none,
        some (Upstream.GoErr.msg "broker shutting down")⟩] ∧
    (∀ dq qs, Upstream.workerIter true dq qs env st = .exit) := by
  constructor
  · simp [Upstream.workerIter, Upstream.waitIfNotPaused, hp]
  · intro dq qs
    simp [Upstream.workerIter]

/-- Witness for C8 amended at a paused broker with quit signaled. -/
theorem shutdown_during_pause_wait_witness :
    Upstream.workerIter false (some task0) true transportEnv stPaused =
      .continueLoop [⟨none, none, none,
        some (Upstream.GoErr.msg "broker shutting down")⟩] ∧
    (∀ dq qs, Upstream.workerIter true dq qs transportEnv stPaused = .exit) :=
  shutdown_during_pause_wait transportEnv stPaused task0 (by decide)

/-- Both computeRetryAfter variants are instances of the shared resolution
shape, each with its own fallback expression. -/
theorem computeRetryAfter_code_shape (pd : String → Option Int) (now : Int)
    (h : Header) (n : Nat) :
    Upstream.computeRetryAfter pd now h n =
      codeResolution pd now h (Upstream.requeueDelay n) ∧
    Client.computeRetryAfter pd now h n =
      codeResolution pd now h (wrap64 (nsPerSecond * shl1 n)) :=
  ⟨rfl, rfl⟩

/-- The code resolution shape matches the spec's resolution order for every
fallback value. -/
theorem codeResolution_eq_spec (pd : String → Option Int) (now : Int)
    (h : Header) (fb : Int) :
    codeResolution pd now h fb = Spec.backoffResolution pd now h fb := by
  unfold codeResolution Spec.backoffResolution
  by_cases hra : h.retryAfter = ""
  · by_cases hrs : h.xRateLimitReset = ""
    · simp [hra, hrs]
    · cases hok : (goParseInt64 h.xRateLimitReset).2 <;> simp [hra, hrs, hok]
  · cases hok : (goAtoi h.retryAfter).2
    · cases hpd : pd h.retryAfter
      · by_cases hrs : h.xRateLimitReset = ""
        · simp [hra, hrs, hok, hpd]
        · cases hok2 : (goParseInt64 h.xRateLimitReset).2 <;>
            simp [hra, hrs, hok, hok2, hpd]
      · simp [hra, hok, hpd]
    · simp [hra, hok]

/-- Counterexample to C3 as stated: with no hint headers and attempt number 5
the retry-queue variant returns an uncapped 32-second fallback, while the
claimed shared fallback min(30s, 1s x 2^5) equals 30 seconds (as the broker
variant indeed returns). -/
theorem backoff_fallback_cap_cex :
    Client.computeRetryAfter noDate 0 emptyHeader 5 = 32 * nsPerSecond ∧
    Upstream.computeRetryAfter noDate 0 emptyHeader 5 = 30 * nsPerSecond ∧
    min (30 * nsPerSecond) (32 * nsPerSecond) = 30 * nsPerSecond ∧
    (32 * nsPerSecond : Int) ≠ 30 * nsPerSecond :=
  ⟨by decide, by decide, by decide, by decide⟩

/-- C3 amended: both variants follow the spec's resolution order — integer
seconds from the retry hint; HTTP-date delta; reset-header heuristic (below
one billion means seconds-from-now, otherwise a unix timestamp); exponential
fallback — but only the broker variant caps the fallback at 30 seconds, the
retry-queue variant returns the uncapped 1s x 2^n. -/
theorem computeRetryAfter_resolution (pd : String → Option Int) (now : Int)
    (h : Header) (n : Nat) (hn : n ≤ 33) :
    Upstream.computeRetryAfter pd now h n =
      Spec.backoffResolution pd now h (min (30 * nsPerSecond) (2 ^ n * nsPerSecond)) ∧
    Client.computeRetryAfter pd now h n =
      Spec.backoffResolution pd now h (2 ^ n * nsPerSecond) := by
  have e63 : (2:Int) ^ 63 = 9223372036854775808 := by norm_num
  have hs : shl1 n = 2 ^ n := shl1_small n (by omega)
  have h1 : (0:Int) < 2 ^ n := by positivity
  have h2 : (2:Int) ^ n ≤ 8589934592 := by
    calc (2:Int) ^ n ≤ 2 ^ 33 := pow_le_pow_right₀ (by norm_num) hn
    _ = 8589934592 := by norm_num
  have huncap : wrap64 (nsPerSecond * shl1 n) = 2 ^ n * nsPerSecond := by
    rw [hs]
    calc wrap64 (nsPerSecond * 2 ^ n) = nsPerSecond * 2 ^ n := by
          apply wrap64_eq_self
          · simp only [nsPerSecond, int64Min]
            linarith
          · simp only [nsPerSecond, int64Max]
            linarith
    _ = 2 ^ n * nsPerSecond := mul_comm _ _
  constructor
  · rw [(computeRetryAfter_code_shape pd now h n).1, codeResolution_eq_spec,
      requeueDelay_eq n hn]
  · rw [(computeRetryAfter_code_shape pd now h n).2, codeResolution_eq_spec, huncap]

/-- Witness for C3 amended at attempt 2 with bare headers. -/
theorem computeRetryAfter_resolution_witness :
    Upstream.computeRetryAfter noDate 0 emptyHeader 2 =
      Spec.backoffResolution noDate 0 emptyHeader
        (min (30 * nsPerSecond) (2 ^ 2 * nsPerSecond)) ∧
    Client.computeRetryAfter noDate 0 emptyHeader 2 =
      Spec.backoffResolution noDate 0 emptyHeader (2 ^ 2 * nsPerSecond) :=
  computeRetryAfter_resolution noDate 0 emptyHeader 2 (by norm_num)

/-- C9: ExtractRateLimitFromHeaders returns no information exactly when all
three parsed fields — limit, remaining, reset-at — are zero (absent headers
parse to zero); otherwise it returns the snapshot carrying exactly the three
parsed values, so any one non-zero field forces a non-nil snapshot and a zero
remaining quota beside a non-zero limit stays distinguishable from silence. -/
theorem extract_rate_limit_none_iff (h : Header) :
    (Utils.ExtractRateLimitFromHeaders h = none ↔
      Utils.parsedLimit h = 0 ∧ Utils.parsedRemaining h = 0 ∧
        Utils.parsedResetAt h = 0) ∧
    (¬(Utils.parsedLimit h = 0 ∧ Utils.parsedRemaining h = 0 ∧
        Utils.parsedResetAt h = 0) →
      Utils.ExtractRateLimitFromHeaders h =
        some ⟨Utils.parsedLimit h, Utils.parsedRemaining h, Utils.parsedResetAt h⟩) := by
  unfold Utils.ExtractRateLimitFromHeaders
  constructor
  · split_ifs with hc <;> simp [hc]
  · intro hnc
    rw [if_neg hnc]

/-- Witness for C9: zero remaining quota beside a non-zero limit yields a
snapshot, while bare headers yield none. -/
theorem extract_rate_limit_none_iff_witness :
    Utils.ExtractRateLimitFromHeaders hdrQuota = some ⟨100, 0, 0⟩ ∧
    Utils.ExtractRateLimitFromHeaders emptyHeader = none :=
  ⟨(extract_rate_limit_none_iff hdrQuota).2 (by decide),
   (extract_rate_limit_none_iff emptyHeader).1.mpr (by decide)⟩

end PipedriveProxy
